import Mathlib

/-!
Verification development for the IO-Link master polling daemon (daemon3.py).

The Lean definitions below are a shallow embedding of the source:
dynamic (duck-typed) scalar values coming back from the HTTP API are
modelled by the inductive PVal; Python exceptions are modelled by the
error side of Except with a PyErr tag naming the exception class; the
HTTP transport is an oracle mapping a request path to an outcome.
Floating point division of the decoded integers is modelled by exact
rational division (the source divides the freshly parsed integer, so
the exact value is the specified one).
-/

/-- A Python scalar as delivered by the JSON envelope of the master
    device (a string or an integer).  The source never type-checks these
    values, so every field that receives one is modelled with PVal. -/
inductive PVal where
  | pstr : String → PVal
  | pint : Int → PVal
deriving DecidableEq, Repr

/-- The Python exception classes that the modelled code can raise. -/
inductive PyErr where
  | connectionError
  | typeError
  | valueError
  | keyError
  | attributeError
  | indexError
deriving DecidableEq, Repr

instance {ε α : Type _} [DecidableEq ε] [DecidableEq α] : DecidableEq (Except ε α) :=
  fun a b =>
    match a, b with
    | .ok x, .ok y => decidable_of_iff (x = y) (by simp)
    | .error x, .error y => decidable_of_iff (x = y) (by simp)
    | .ok _, .error _ => isFalse (by simp)
    | .error _, .ok _ => isFalse (by simp)

/-- Python str() on a scalar. -/
def pyStr : PVal → String
  | .pstr s => s
  | .pint n => toString n

/-- Python string concatenation with a dynamic right operand: a str plus
    an int raises TypeError. -/
def requireStr : PVal → Except PyErr String
  | .pstr s => .ok s
  | .pint _ => .error .typeError

/-- Value of one hexadecimal digit, none for a non-hex character. -/
def hexDigit? (c : Char) : Option Nat :=
  if ('0' ≤ c ∧ c ≤ '9') then some (c.toNat - ('0').toNat)
  else if ('a' ≤ c ∧ c ≤ 'f') then some (c.toNat - ('a').toNat + 10)
  else if ('A' ≤ c ∧ c ≤ 'F') then some (c.toNat - ('A').toNat + 10)
  else none

/-- Accumulating base-16 parse of a digit list. -/
def hexGo : List Char → Nat → Option Nat
  | [], acc => some acc
  | c :: cs, acc =>
    match hexDigit? c with
    | some d => hexGo cs (acc * 16 + d)
    | none => none

/-- Base-16 value of a digit list, none when empty or on a non-hex
    character. -/
def hexVal? : List Char → Option Nat
  | [] => none
  | c :: cs => hexGo (c :: cs) 0

/-- Python int(s, 16) on the plain hex strings the device delivers
    (no sign, prefix or whitespace forms): none models the ValueError. -/
def hexToNat? (s : String) : Option Nat :=
  hexVal? s.toList

/-- Python slice s[a:b] for 0 ≤ a ≤ b: out-of-range indices clamp. -/
def pySlice (s : String) (a b : Nat) : String :=
  ((s.toList.drop a).take (b - a)).asString

/-- One influx point produced for a sensor: the measurement name and the
    numeric fields dictionary (tags and timestamp carry no logic). -/
structure SensorJson where
  measurement : String
  fields : List (String × ℚ)
deriving DecidableEq, Repr

/-- Dictionary lookup in the fields of a point. -/
def lookupField (fs : List (String × ℚ)) (k : String) : Option ℚ :=
  (fs.find? (fun p => p.1 == k)).map (fun p => p.2)

/-- IOLinkSensorInformation: the per-port sensor record.  Field names
    follow the source; sensorprocessdata is None (none) or the scalar the
    pdin endpoint returned; json is the value assigned from datatojson
    each cycle before any read (the initial empty-string sentinel of the
    source is overwritten before first use and is modelled as none). -/
structure IOLinkSensorInformation where
  sensorport : Nat
  sensortype : PVal
  sensorname : PVal
  sensorserial : PVal
  sensorvendorid : PVal
  sensordata : Int
  sensorlocalname : PVal
  sensorprocessdata : Option PVal
  json : Option SensorJson
deriving DecidableEq, Repr

/-- The explicit record the source builds for a port with no connected
    sensor: IOLinkSensorInformation(portnumber, ..., None) with every
    identity field the empty string. -/
def emptySensorInformation (p : Nat) : IOLinkSensorInformation :=
  { sensorport := p
    sensortype := .pstr ("")
    sensorname := .pstr ("")
    sensorserial := .pstr ("")
    sensorvendorid := .pstr ("")
    sensordata := -2
    sensorlocalname := .pstr ("")
    sensorprocessdata := none
    json := none }

/-- IOLinkSensorInformation.datatojson, lines 947-1272 of the source.
    Vendor 310 type 416/417 decodes four byte-aligned fields from the
    raw hex string; type 446 decodes the whole string as one integer;
    every other vendor or type logs and returns None (ok none).  A None
    process-data string raises TypeError (subscript of None, or int of
    None); a slice that is empty or contains a non-hex character raises
    ValueError inside int(_, 16).  An integer process-data value raises
    TypeError in both subscripting and int(_, 16). -/
def datatojson (s : IOLinkSensorInformation) : Except PyErr (Option SensorJson) :=
  if s.sensorvendorid = .pint 310 then
    if s.sensortype = .pint 416 ∨ s.sensortype = .pint 417 then
      match s.sensorprocessdata with
      | none => .error .typeError
      | some (.pint _) => .error .typeError
      | some (.pstr pd) =>
        match hexToNat? (pySlice pd 10 11) with
        | none => .error .valueError
        | some conf =>
          match hexToNat? (pySlice pd 8 10) with
          | none => .error .valueError
          | some diag =>
            match hexToNat? (pySlice pd 4 8) with
            | none => .error .valueError
            | some vel =>
              match hexToNat? (pySlice pd 0 4) with
              | none => .error .valueError
              | some acc =>
                .ok (some { measurement := "vibrationEvents"
                            fields := [("configuration", (conf : ℚ)),
                                       ("diagnosis", (diag : ℚ)),
                                       ("velocity", (vel : ℚ) / 100),
                                       ("acceleration", (acc : ℚ) / 100)] })
    else if s.sensortype = .pint 446 then
      match s.sensorprocessdata with
      | none => .error .typeError
      | some (.pint _) => .error .typeError
      | some (.pstr pd) =>
        match hexToNat? pd with
        | some t =>
          .ok (some { measurement := "temperatureEvents"
                      fields := [("temperature", (t : ℚ) / 10)] })
        | none => .error .valueError
    else
      .ok none
  else
    .ok none

example : datatojson { emptySensorInformation 1 with
    sensorvendorid := .pint 310, sensortype := .pint 446,
    sensorprocessdata := some (.pstr ("0000012C")) } =
    .ok (some { measurement := "temperatureEvents"
                fields := [("temperature", ((300 : ℕ) : ℚ) / 10)] }) := by rfl

example : datatojson { emptySensorInformation 1 with
    sensorvendorid := .pint 310, sensortype := .pint 416,
    sensorprocessdata := some (.pstr ("")) } = .error .valueError := by decide

/-- The possible outcomes of one HTTP GET against the master device.
    response carries the success flag of the status code and, for the
    processed endpoints, the value field of the JSON envelope that the
    body would parse to. -/
inductive HttpOutcome where
  | timeout
  | connError
  | response (ok : Bool) (value : PVal)
deriving DecidableEq, Repr

/-- IOLinkMaster.httpget (processed form), lines 713-756.  A timeout or
    connection error is caught and logged, which leaves myresponse as
    None, after which the source explicitly raises ConnectionError.  On
    a success status the envelope value is returned.  On a non-success
    status the logging line calls myresponse.status_code() although
    status_code is an int attribute, so the call raises TypeError and
    the commented return None line below it is dead code. -/
def httpget (o : HttpOutcome) : Except PyErr PVal :=
  match o with
  | .timeout => .error .connectionError
  | .connError => .error .connectionError
  | .response ok v => if ok then .ok v else .error .typeError

/-- IOLinkMaster.httpget with processed=False (used only by gettree):
    the raw body is not modelled, only success or failure. -/
def httpgetRaw (o : HttpOutcome) : Except PyErr Unit :=
  match o with
  | .timeout => .error .connectionError
  | .connError => .error .connectionError
  | .response ok _ => if ok then .ok () else .error .typeError

/-- One node of the subs list under the data key of the gettree
    response: its identifier and the number of its own subs. -/
structure TreeNode where
  identifier : String
  nsubs : Nat
deriving DecidableEq, Repr

/-- The master device as the HTTP collaborator: respond maps a request
    path to the outcome of a GET on it, and treeSubs is the pre-parsed
    subs list of the gettree body (the JSON text parsing itself carries
    no logic relevant to the claims). -/
structure Device where
  respond : String → HttpOutcome
  treeSubs : List TreeNode

def getipaddress (d : Device) : Except PyErr PVal :=
  httpget (d.respond ("/iotsetup/network/ipaddress/getdata"))

def getproductserial (d : Device) : Except PyErr PVal :=
  httpget (d.respond ("/deviceinfo/serialnumber/getdata"))

def getvendor (d : Device) : Except PyErr PVal :=
  httpget (d.respond ("/deviceinfo/vendor/getdata"))

def getdevicefamily (d : Device) : Except PyErr PVal :=
  httpget (d.respond ("/deviceinfo/devicefamily/getdata"))

def gettemperature (d : Device) : Except PyErr PVal :=
  httpget (d.respond ("/processdatamaster/temperature/getdata"))

def getsupervisionstatus (d : Device) : Except PyErr PVal :=
  httpget (d.respond ("/processdatamaster/supervisionstatus/getdata"))

/-- Current drawn by the master, line 650: queries the current endpoint. -/
def getmilliamperes (d : Device) : Except PyErr PVal :=
  httpget (d.respond ("/processdatamaster/current/getdata"))

def getproductcode (d : Device) : Except PyErr PVal :=
  httpget (d.respond ("/deviceinfo/productcode/getdata"))

/-- Supply voltage of the master, line 681: the request string in the
    source body is the current endpoint, not the voltage endpoint. -/
def getvolts (d : Device) : Except PyErr PVal :=
  httpget (d.respond ("/processdatamaster/current/getdata"))

def portpath (xport : Nat) (field : String) : String :=
  "/iolinkmaster/port[" ++ toString xport ++ "]/iolinkdevice/" ++ field ++ "/getdata"

def getportsensorlocalname (d : Device) (xport : Nat) : Except PyErr PVal :=
  httpget (d.respond (portpath xport ("applicationspecifictag")))

def getportsensordeviceid (d : Device) (xport : Nat) : Except PyErr PVal :=
  httpget (d.respond (portpath xport ("deviceid")))

def getportsensorprocessdata (d : Device) (xport : Nat) : Except PyErr PVal :=
  httpget (d.respond (portpath xport ("pdin")))

def getportsensorname (d : Device) (xport : Nat) : Except PyErr PVal :=
  httpget (d.respond (portpath xport ("productname")))

def getportsensorserial (d : Device) (xport : Nat) : Except PyErr PVal :=
  httpget (d.respond (portpath xport ("serial")))

def getportdevicestatus (d : Device) (xport : Nat) : Except PyErr PVal :=
  httpget (d.respond (portpath xport ("status")))

def getportsensorvendorid (d : Device) (xport : Nat) : Except PyErr PVal :=
  httpget (d.respond (portpath xport ("vendorid")))

/-- IOLinkMaster.getportcount, lines 690-711: gettree, then the number
    of subs of the first subtree whose identifier is iolinkmaster, zero
    when no such subtree exists.  The branch of the source returning
    None is dead because httpget raises instead of returning None. -/
def getportcount (d : Device) : Except PyErr Nat := do
  let _ ← httpgetRaw (d.respond ("/gettree"))
  match d.treeSubs.find? (fun t => t.identifier == "iolinkmaster") with
  | some t => .ok t.nsubs
  | none => .ok 0

/-- The master health and identity fields fetched each full poll (the
    port count and startup address resolution happen before the loop). -/
structure IOLinkMasterInformation where
  ipaddress : PVal
  productserial : PVal
  vendor : PVal
  family : PVal
  temperature : PVal
  supervisionstatus : PVal
  milliamperes : PVal
  productcode : PVal
  voltage : PVal
deriving DecidableEq, Repr

/-- Lines 202-214 of getreadings: the full-poll master field fetch, in
    source order.  The influx write that follows is wrapped in
    try-except in the source and cannot affect the loop. -/
def fetchMasterInfo (d : Device) : Except PyErr IOLinkMasterInformation := do
  let ip ← getipaddress d
  let ser ← getproductserial d
  let ven ← getvendor d
  let fam ← getdevicefamily d
  let temp ← gettemperature d
  let sup ← getsupervisionstatus d
  let ma ← getmilliamperes d
  let pc ← getproductcode d
  let vol ← getvolts d
  .ok { ipaddress := ip, productserial := ser, vendor := ven, family := fam,
        temperature := temp, supervisionstatus := sup, milliamperes := ma,
        productcode := pc, voltage := vol }

/-- Python list.insert(i, x): insert before position i, clamped to an
    append when i is not less than the length. -/
def pyInsert (a : α) : Nat → List α → List α
  | _, [] => [a]
  | 0, b :: l => a :: b :: l
  | i + 1, b :: l => b :: pyInsert a i l

/-- Python indexing l[i] for a nonnegative index: IndexError when out
    of range. -/
def pyIdx (l : List α) (i : Nat) : Except PyErr α :=
  match l.get? i with
  | some x => .ok x
  | none => .error .indexError

/-- The per-port body of getsensorsondevices, lines 427-442: when the
    port status is 2 the six sensor fields are fetched in the order the
    constructor arguments are evaluated, and the constructor maps the
    second argument to sensortype, the third (the local name endpoint)
    to sensorname, and the sixth (the product name endpoint) to
    sensorlocalname, exactly as the source positional call does;
    otherwise the explicit empty record is built. -/
def fetchPortSensor (d : Device) (p : Nat) : Except PyErr IOLinkSensorInformation := do
  let st ← getportdevicestatus d p
  if st = .pint 2 then do
    let typ ← getportsensordeviceid d p
    let lnm ← getportsensorlocalname d p
    let ser ← getportsensorserial d p
    let vid ← getportsensorvendorid d p
    let nm ← getportsensorname d p
    let pd ← getportsensorprocessdata d p
    .ok { sensorport := p, sensortype := typ, sensorname := lnm,
          sensorserial := ser, sensorvendorid := vid, sensordata := -2,
          sensorlocalname := nm, sensorprocessdata := some pd, json := none }
  else
    .ok (emptySensorInformation p)

/-- The accumulation loop of getsensorsondevices over the listed port
    numbers: portefeuille.insert(portnumber, sensex) per port.  The list
    entries are Option-valued because the diff loop of getreadings tests
    them against None, although this builder never inserts a None. -/
def sensorsLoop (d : Device) : List Nat → List (Option IOLinkSensorInformation) →
    Except PyErr (List (Option IOLinkSensorInformation))
  | [], acc => .ok acc
  | p :: rest, acc => do
    let s ← fetchPortSensor d p
    sensorsLoop d rest (pyInsert (some s) p acc)

/-- IOLinkMaster.getsensorsondevices, lines 417-448: one entry per port
    number from 1 to the port count. -/
def getsensorsondevices (d : Device) : Except PyErr (List (Option IOLinkSensorInformation)) := do
  let n ← getportcount d
  sensorsLoop d (List.range' 1 n) []

/-- The configuration / sensor events the loop sends to the SaaS
    collaborator, with the data the source message strings carry.  The
    typechanged and serialchanged messages of the source quote only the
    port, type and serial of the saved (previous) record. -/
inductive Event where
  | sensornotfound (typ : PVal) (serial : String)
  | newsensorfound (port : Nat) (typ : PVal) (serial : String)
  | sensortypechanged (port : Nat) (oldType : PVal) (oldSerial : String)
  | sensorserialchanged (port : Nat) (typ : PVal) (oldSerial : String)
  | accelerationAlert (port : Nat) (value threshold : ℚ)
  | velocityAlert (port : Nat) (value threshold : ℚ)
  | temperatureMinAlert (port : Nat) (value threshold : ℚ)
  | temperatureMaxAlert (port : Nat) (value threshold : ℚ)
deriving DecidableEq, Repr

/-- Lines 267-300 of getreadings: the per-port comparison of the saved
    and the current sensor entry.  The branches testing entries against
    None follow the source; a current entry with a saved None entry
    builds its message from attributes of that None and so raises
    AttributeError (and the newsensorfound event below that line is
    unreachable).  Building a message string raises TypeError when the
    serial concatenated into it is an int. -/
def diffPort (sv cs : Option IOLinkSensorInformation) : Except PyErr (List Event) :=
  match cs with
  | none =>
    match sv with
    | some s => do
      let ser ← requireStr s.sensorserial
      .ok [Event.sensornotfound s.sensortype ser]
    | none => .ok []
  | some c =>
    match sv with
    | none => .error .attributeError
    | some s =>
      if s.sensortype ≠ c.sensortype then do
        let ser ← requireStr s.sensorserial
        .ok [Event.sensortypechanged s.sensorport s.sensortype ser]
      else if s.sensorserial ≠ c.sensorserial then do
        let ser ← requireStr s.sensorserial
        .ok [Event.sensorserialchanged s.sensorport s.sensortype ser]
      else
        .ok []

/-- The threshold table: the float value of a property under the key
    vendorid at serial at thresholdtype, none when the key is missing
    (the KeyError path of the source). -/
def ThresholdProps : Type := String → Option ℚ

/-- Emission of one alert: the source builds the message string by
    concatenating sensorname and sensorlocalname into it, which raises
    TypeError when either is an int, and then sends the event. -/
def mkAlert (cs : IOLinkSensorInformation) (e : Event) : Except PyErr (List Event) := do
  let _ ← requireStr cs.sensorname
  let _ ← requireStr cs.sensorlocalname
  pure [e]

/-- Lines 302-408 of getreadings: the threshold evaluation for one
    current sensor entry.  Returns the alert events sent plus a flag
    recording whether a break statement ran (a break aborts the whole
    port loop of this cycle).  The key root is built before the vendor
    test, as in the source.  For vibration sensors a missing
    acceleration or velocity property breaks; for temperature sensors a
    missing property falls back to 99999.99 or -273.00.  The message of
    an alert concatenates sensorname and sensorlocalname, raising
    TypeError when either is an int.  The fields lookup of the json
    list cannot raise KeyError for lists built by datatojson, so the
    break guarded by it fires only through the metric lookups. -/
def checkThresholds (cs : IOLinkSensorInformation) (props : ThresholdProps) :
    Except PyErr (List Event × Bool) :=
  match cs.json with
  | none => .ok ([], false)
  | some j => do
    let ser ← requireStr cs.sensorserial
    let root := pyStr cs.sensorvendorid ++ "@" ++ ser
    if cs.sensorvendorid = .pint 310 then
      if cs.sensortype = .pint 416 ∨ cs.sensortype = .pint 417 then
        match props (root ++ "@acceleration") with
        | none => .ok ([], true)
        | some accth =>
          match props (root ++ "@velocity") with
          | none => .ok ([], true)
          | some velth =>
            match lookupField j.fields "acceleration", lookupField j.fields "velocity" with
            | some acc, some vel =>
              (if acc > accth then
                  mkAlert cs (Event.accelerationAlert cs.sensorport acc accth)
                else pure []) >>= fun evA =>
              (if vel > velth then
                  mkAlert cs (Event.velocityAlert cs.sensorport vel velth)
                else pure []) >>= fun evV =>
              .ok (evA ++ evV, false)
            | _, _ => .ok ([], true)
      else if cs.sensortype = .pint 446 then
        let tmax := (props (root ++ "@temperaturemax")).getD (99999.99 : ℚ)
        let tmin := (props (root ++ "@temperaturemin")).getD (-273 : ℚ)
        match lookupField j.fields "temperature" with
        | none => .ok ([], true)
        | some t =>
          if t < tmin then
            mkAlert cs (Event.temperatureMinAlert cs.sensorport t tmin) >>= fun ev =>
            .ok (ev, false)
          else if t > tmax then
            mkAlert cs (Event.temperatureMaxAlert cs.sensorport t tmax) >>= fun ev =>
            .ok (ev, false)
          else
            .ok ([], false)
      else
        .ok ([], false)
    else
      .ok ([], false)

/-- The comparison block of the port loop body: skipped when no saved
    list exists (first cycle), otherwise both lists are indexed and the
    entries compared. -/
def diffStep (save? : Option (List (Option IOLinkSensorInformation)))
    (cur : List (Option IOLinkSensorInformation)) (p : Nat) :
    Except PyErr (List Event) :=
  match save? with
  | none => pure []
  | some sl => do
    let cs ← pyIdx cur p
    let sv ← pyIdx sl p
    diffPort sv cs

/-- The threshold block of the port loop body: reading the json
    attribute of a None entry raises AttributeError, otherwise the
    thresholds are evaluated and the alert events appended to the
    comparison events of this port. -/
def thresholdStep (cs? : Option IOLinkSensorInformation) (props : ThresholdProps)
    (evs1 : List Event) : Except PyErr (List Event × Bool) :=
  match cs? with
  | none => .error .attributeError
  | some cs =>
    checkThresholds cs props >>= fun pr => .ok (evs1 ++ pr.1, pr.2)

/-- The body of the port loop of getreadings for one index: the
    comparison block (only when a saved list exists), then the
    threshold block on the current entry. -/
def portBody (save? : Option (List (Option IOLinkSensorInformation)))
    (cur : List (Option IOLinkSensorInformation)) (props : ThresholdProps)
    (p : Nat) : Except PyErr (List Event × Bool) := do
  let evs1 ← diffStep save? cur p
  let cs? ← pyIdx cur p
  thresholdStep cs? props evs1

/-- The port loop driver over a list of indices, with the break
    semantics of the source: a break keeps the events already sent and
    abandons the remaining indices. -/
def runPorts (save? : Option (List (Option IOLinkSensorInformation)))
    (cur : List (Option IOLinkSensorInformation)) (props : ThresholdProps) :
    List Nat → Except PyErr (List Event)
  | [] => .ok []
  | p :: rest => do
    let (evs, brk) ← portBody save? cur props p
    if brk then
      .ok evs
    else do
      let evs' ← runPorts save? cur props rest
      .ok (evs ++ evs')

/-- Lines 265-408 of getreadings: for portnumber in range(0, portcount - 1),
    so over the zero-based indices 0 .. portcount - 2. -/
def portLoop (save? : Option (List (Option IOLinkSensorInformation)))
    (cur : List (Option IOLinkSensorInformation)) (props : ThresholdProps)
    (portcount : Nat) : Except PyErr (List Event) :=
  runPorts save? cur props (List.range (portcount - 1))

/-- Lines 246-250 of getreadings: the data-only refresh of a partial
    cycle.  For each sensor of the cached list the port status is
    re-queried and the process data is refetched when it is 2, else set
    to None.  Iterating over a None entry would dereference its
    sensorport attribute.  In the source the records are mutated in
    place; only sensorprocessdata changes, so the pure copy is
    observationally equal for every later read. -/
def refreshsensordata (d : Device) : List (Option IOLinkSensorInformation) →
    Except PyErr (List (Option IOLinkSensorInformation))
  | [] => .ok []
  | none :: _ => .error .attributeError
  | some s :: rest => do
    let st ← getportdevicestatus d s.sensorport
    let s' ←
      if st = .pint 2 then do
        let pd ← getportsensorprocessdata d s.sensorport
        pure { s with sensorprocessdata := some pd }
      else
        pure { s with sensorprocessdata := none }
    let rest' ← refreshsensordata d rest
    .ok (some s' :: rest')

/-- Lines 252-263 of getreadings: sensor.json = sensor.datatojson(ipx)
    for every cached sensor (the influx write of the json is wrapped in
    try-except and cannot affect the loop). -/
def assignJson : List (Option IOLinkSensorInformation) →
    Except PyErr (List (Option IOLinkSensorInformation))
  | [] => .ok []
  | none :: _ => .error .attributeError
  | some s :: rest => do
    let j ← datatojson s
    let rest' ← assignJson rest
    .ok (some { s with json := j } :: rest')

/-- The private state getreadings threads through its while loop. -/
structure LoopState where
  itercount : Nat
  fullinfo : Bool
  savesensorlist : Option (List (Option IOLinkSensorInformation))
  sensorlist : List (Option IOLinkSensorInformation)
deriving Repr, DecidableEq

/-- The state before the first iteration: itercount 0, fullinfo True,
    savesensorlist None, sensorlist empty. -/
def initialLoopState : LoopState :=
  { itercount := 0, fullinfo := true, savesensorlist := none, sensorlist := [] }

/-- One iteration of the while loop of getreadings, lines 198-411:
    increment itercount; on fullinfo fetch the master fields and rebuild
    the sensor list, else possibly reset for the next cycle and refresh
    only process data; then assign json per sensor, re-query the port
    count, run the port loop against the saved list, and finally save
    the current list.  Any uncaught exception aborts the iteration and
    with it the loop, since the source has no handler around the body. -/
def cycleStep (d : Device) (iterations : Nat) (props : ThresholdProps)
    (st : LoopState) : Except PyErr (LoopState × List Event) := do
  let ic := st.itercount + 1
  let (ic, fullinfo, sensorlist) ←
    if st.fullinfo then do
      let _ ← fetchMasterInfo d
      let sl ← getsensorsondevices d
      pure (ic, false, sl)
    else do
      let (ic, fullinfo) := if ic > iterations then (0, true) else (ic, false)
      let sl ← refreshsensordata d st.sensorlist
      pure (ic, fullinfo, sl)
  let sensorlist ← assignJson sensorlist
  let pc ← getportcount d
  let evs ← portLoop st.savesensorlist sensorlist props pc
  .ok ({ itercount := ic, fullinfo := fullinfo,
         savesensorlist := some sensorlist, sensorlist := sensorlist }, evs)

/-- Run the loop for a number of iterations, stopping at the first
    uncaught exception, collecting the events of completed cycles. -/
def runCycles (d : Device) (iterations : Nat) (props : ThresholdProps) :
    Nat → LoopState → Except PyErr (LoopState × List Event)
  | 0, st => .ok (st, [])
  | n + 1, st => do
    let (st', evs) ← cycleStep d iterations props st
    let (st'', evs') ← runCycles d iterations props n st'
    .ok (st'', evs ++ evs')

/-- The kind of one poll cycle: a full poll rebuilds identity and
    health data, a data poll (the partial poll of the specification)
    refreshes only presence and process data. -/
inductive PollKind where
  | fullPoll
  | dataPoll
deriving DecidableEq, Repr

/-- The scheduling skeleton of the while loop, lines 196-244: the pair
    (itercount, fullinfo) before an iteration, mapped to the pair after
    it together with the kind of poll the iteration performs.  The reset
    branch runs inside the non-full iteration, so the iteration it runs
    in is still a data poll and the following one is full. -/
def schedStep (iterations : Nat) (s : Nat × Bool) : (Nat × Bool) × PollKind :=
  let ic := s.1 + 1
  if s.2 then ((ic, false), .fullPoll)
  else if ic > iterations then ((0, true), .dataPoll)
  else ((ic, false), .dataPoll)

/-- The scheduling state before iteration k (zero-based), starting from
    itercount 0 and fullinfo True. -/
def schedState (iterations : Nat) : Nat → Nat × Bool
  | 0 => (0, true)
  | k + 1 => (schedStep iterations (schedState iterations k)).1

/-- The kind of iteration k (zero-based). -/
def kindAt (iterations k : Nat) : PollKind :=
  (schedStep iterations (schedState iterations k)).2

example : (List.range 9).map (kindAt 3) =
    [.fullPoll, .dataPoll, .dataPoll, .dataPoll, .fullPoll,
     .dataPoll, .dataPoll, .dataPoll, .fullPoll] := by decide

/-- A demonstration master whose voltage endpoint reports 24 and whose
    current endpoint reports 100, every other endpoint succeeding. -/
def voltsDemoDevice : Device :=
  { respond := fun p =>
      if p = "/processdatamaster/voltage/getdata" then .response true (.pint 24)
      else if p = "/processdatamaster/current/getdata" then .response true (.pint 100)
      else .response true (.pstr "x")
    treeSubs := [{ identifier := "iolinkmaster", nsubs := 2 }] }

/-- C9: the spec says the voltage recorded in the master snapshot is read
    from the voltage field of the master.  The source of getvolts sends
    its GET to the current endpoint (the same request getmilliamperes
    sends), so the snapshot voltage is the current reading: on a master
    whose voltage field is 24 and whose current field is 100, the
    recorded voltage is 100, not 24.  This contradicts the docstring of
    getvolts, which promises the supply voltage. -/
theorem getvolts_reads_current_endpoint :
    (∀ d : Device, getvolts d = getmilliamperes d)
    ∧ (fetchMasterInfo voltsDemoDevice).map IOLinkMasterInformation.voltage =
        .ok (.pint 100)
    ∧ (fetchMasterInfo voltsDemoDevice).map IOLinkMasterInformation.voltage ≠
        .ok (.pint 24) := by
  refine ⟨fun d => rfl, by decide, by decide⟩

/-- A master whose temperature endpoint times out while every other
    endpoint succeeds. -/
def devTimeout : Device :=
  { respond := fun p =>
      if p = "/processdatamaster/temperature/getdata" then .timeout
      else .response true (.pstr "x")
    treeSubs := [{ identifier := "iolinkmaster", nsubs := 1 }] }

/-- C1 counterexample: a single timed-out HTTP GET (the temperature
    query of a full poll) does not mark the field unavailable and
    continue the cycle with partial data: the cycle aborts with the
    ConnectionError that httpget raises, and since getreadings has no
    handler around the loop body, the polling loop terminates. -/
theorem cycle_dies_on_single_timeout :
    cycleStep devTimeout 6 (fun _ => none) initialLoopState =
      .error .connectionError := by decide

/-- A bound computation raises whenever its continuation raises on every
    successful value of its first step. -/
theorem exists_error_bind {α β : Type} {x : Except PyErr α} {f : α → Except PyErr β}
    (hx : ∀ a, x = .ok a → ∃ e, f a = .error e) : ∃ e, (x >>= f) = .error e := by
  cases x with
  | error e => exact ⟨e, rfl⟩
  | ok a => simpa [bind, Except.bind] using hx a rfl

/-- When the temperature endpoint does not deliver a success response,
    the full-poll master field fetch raises. -/
theorem fetchMasterInfo_temperature_failure (d : Device)
    (h : ∀ v, d.respond ("/processdatamaster/temperature/getdata") ≠ .response true v) :
    ∃ e, fetchMasterInfo d = .error e := by
  have htemp : ∃ e, gettemperature d = .error e := by
    unfold gettemperature httpget
    cases ho : d.respond ("/processdatamaster/temperature/getdata") with
    | timeout => exact ⟨.connectionError, rfl⟩
    | connError => exact ⟨.connectionError, rfl⟩
    | response ok v =>
      cases ok with
      | false => exact ⟨.typeError, rfl⟩
      | true => exact absurd ho (h v)
  obtain ⟨e0, he⟩ := htemp
  unfold fetchMasterInfo
  refine exists_error_bind (fun v1 h1 => ?_)
  refine exists_error_bind (fun v2 h2 => ?_)
  refine exists_error_bind (fun v3 h3 => ?_)
  refine exists_error_bind (fun v4 h4 => ?_)
  rw [he]
  exact ⟨e0, rfl⟩

/-- C1 amended: httpget never returns an unavailable marker on failure.
    A timeout or connection error is caught, logged and then re-raised
    as ConnectionError; a non-success status raises TypeError inside the
    logging call on status_code.  Since getreadings does not catch
    either, a cycle whose temperature query fails aborts instead of
    continuing with partial data, ending the per-device loop. -/
theorem httpget_failure_raises_and_kills_cycle :
    (∀ o : HttpOutcome, (∀ v, o ≠ .response true v) → ∃ e, httpget o = .error e)
    ∧ ∀ (d : Device) (its : Nat) (props : ThresholdProps) (st : LoopState),
        st.fullinfo = true →
        (∀ v, d.respond ("/processdatamaster/temperature/getdata") ≠ .response true v) →
        ∀ r, cycleStep d its props st ≠ .ok r := by
  constructor
  · intro o h
    cases o with
    | timeout => exact ⟨.connectionError, rfl⟩
    | connError => exact ⟨.connectionError, rfl⟩
    | response ok v =>
      cases ok with
      | false => exact ⟨.typeError, rfl⟩
      | true => exact absurd rfl (h v)
  · intro d its props st hfull hresp r hok
    obtain ⟨e0, he⟩ := fetchMasterInfo_temperature_failure d hresp
    unfold cycleStep at hok
    rw [hfull] at hok
    simp [bind, Except.bind, he] at hok

/-- Closed instance of the C1 amended theorem at the timing-out master. -/
theorem httpget_failure_raises_and_kills_cycle_witness :
    (∃ e, httpget HttpOutcome.timeout = .error e)
    ∧ cycleStep devTimeout 6 (fun _ => none) initialLoopState ≠
        .ok (initialLoopState, []) := by
  constructor
  · exact httpget_failure_raises_and_kills_cycle.1 .timeout (fun v h => by cases h)
  · exact httpget_failure_raises_and_kills_cycle.2 devTimeout 6 (fun _ => none)
      initialLoopState rfl
      (fun v h => by
        rw [show devTimeout.respond ("/processdatamaster/temperature/getdata") =
          HttpOutcome.timeout from by decide] at h
        cases h)
      (initialLoopState, [])

/-- C2 counterexample: malformed or absent process data for a registered
    codec (vendor 310, types 416/417/446) does not yield the empty
    Unrecognized result: the decode raises.  A two-character string for
    a vibration codec makes int of the empty slice raise ValueError; a
    None process-data value raises TypeError; a non-hex string for the
    temperature codec raises ValueError. -/
theorem registered_codec_malformed_raises :
    datatojson { emptySensorInformation 1 with
      sensorvendorid := .pint 310, sensortype := .pint 416,
      sensorprocessdata := some (.pstr ("00")) } = .error .valueError
    ∧ datatojson { emptySensorInformation 1 with
      sensorvendorid := .pint 310, sensortype := .pint 417,
      sensorprocessdata := none } = .error .typeError
    ∧ datatojson { emptySensorInformation 2 with
      sensorvendorid := .pint 310, sensortype := .pint 446,
      sensorprocessdata := some (.pstr ("XYZ")) } = .error .valueError := by decide

/-- C2 amended: for the registered codecs, malformed input does not give
    the empty result but raises: a vibration string shorter than the 11
    characters the slices read gives ValueError, absent process data
    gives TypeError, and a non-hex temperature string gives ValueError.
    Only an unregistered vendor or type pair returns the empty None
    result. -/
theorem codec_malformed_or_absent_errors :
    (∀ (info : IOLinkSensorInformation) (pd : String),
      info.sensorvendorid = .pint 310 →
      (info.sensortype = .pint 416 ∨ info.sensortype = .pint 417) →
      info.sensorprocessdata = some (.pstr pd) →
      pd.length < 11 →
      datatojson info = .error .valueError)
    ∧ (∀ info : IOLinkSensorInformation,
      info.sensorvendorid = .pint 310 →
      (info.sensortype = .pint 416 ∨ info.sensortype = .pint 417 ∨
        info.sensortype = .pint 446) →
      info.sensorprocessdata = none →
      datatojson info = .error .typeError)
    ∧ (∀ (info : IOLinkSensorInformation) (pd : String),
      info.sensorvendorid = .pint 310 → info.sensortype = .pint 446 →
      info.sensorprocessdata = some (.pstr pd) →
      hexToNat? pd = none →
      datatojson info = .error .valueError) := by
  refine ⟨?_, ?_, ?_⟩
  · intro info pd hv ht hp hlen
    have h10 : hexToNat? (pySlice pd 10 11) = none := by
      have hll : pd.toList.length ≤ 10 := by
        have : pd.length = pd.toList.length := rfl
        omega
      unfold pySlice hexToNat?
      rw [List.drop_eq_nil_of_le hll]
      rfl
    rcases ht with ht | ht <;> simp [datatojson, hv, ht, hp, h10]
  · intro info hv ht hp
    rcases ht with ht | ht | ht <;> simp [datatojson, hv, ht, hp]
  · intro info pd hv ht hp hx
    simp [datatojson, hv, ht, hp, hx]

/-- Closed instance of the C2 amended theorem: a four-character string
    for a vibration codec and an absent value for a temperature codec
    both raise. -/
theorem codec_malformed_or_absent_errors_witness :
    datatojson { emptySensorInformation 3 with
      sensorvendorid := .pint 310, sensortype := .pint 417,
      sensorprocessdata := some (.pstr ("ABCD")) } = .error .valueError
    ∧ datatojson { emptySensorInformation 3 with
      sensorvendorid := .pint 310, sensortype := .pint 446,
      sensorprocessdata := none } = .error .typeError := by
  constructor
  · exact codec_malformed_or_absent_errors.1 _ ("ABCD") rfl (.inr rfl) rfl (by decide)
  · exact codec_malformed_or_absent_errors.2.1 _ rfl (.inr (.inr rfl)) rfl

/-- A master whose port endpoints report status 2 and process data
    0000012C, used to exercise a partial-cycle data refresh. -/
def devHot : Device :=
  { respond := fun q =>
      if q = portpath 1 ("status") then .response true (.pint 2)
      else if q = portpath 1 ("pdin") then .response true (.pstr ("0000012C"))
      else .response true (.pstr ("x"))
    treeSubs := [{ identifier := "iolinkmaster", nsubs := 1 }] }

/-- C10: a port that was empty at the last full poll keeps the cached
    empty identity fields (type, serial and vendor all the empty string)
    through every partial cycle, whatever process data the refresh
    stores: the decode returns the empty None result (vendor is not
    310), the comparison of the cached record against its refreshed copy
    emits no change event (type and serial are unchanged), the port body
    emits no event and no alert (the assigned json is None), and the
    partial refresh of an empty record on a now-occupied port updates
    only sensorprocessdata. -/
theorem empty_port_stays_inert_between_full_polls
    (p : Nat) (pd pd2 : Option PVal) (j j2 : Option SensorJson)
    (props : ThresholdProps) :
    datatojson { emptySensorInformation p with
      sensorprocessdata := pd2, json := j2 } = .ok none
    ∧ diffPort (some { emptySensorInformation p with
          sensorprocessdata := pd, json := j })
        (some { emptySensorInformation p with
          sensorprocessdata := pd2, json := j2 }) = .ok []
    ∧ portBody (some [some { emptySensorInformation p with
          sensorprocessdata := pd, json := j }])
        [some { emptySensorInformation p with
          sensorprocessdata := pd2, json := none }] props 0 = .ok ([], false)
    ∧ refreshsensordata devHot [some (emptySensorInformation 1)] =
        .ok [some { emptySensorInformation 1 with
          sensorprocessdata := some (.pstr ("0000012C")) }] := by
  refine ⟨?_, ?_, ?_, by decide⟩
  · simp [datatojson, emptySensorInformation]
  · simp [diffPort, emptySensorInformation]
  · simp [portBody, diffStep, thresholdStep, pyIdx, diffPort, checkThresholds,
          emptySensorInformation, bind, Except.bind, pure, Except.pure]

/-- The alert events of the threshold evaluator, as opposed to the
    configuration change events of the topology comparison. -/
def isAlertEvent : Event → Bool
  | .accelerationAlert _ _ _ => true
  | .velocityAlert _ _ _ => true
  | .temperatureMinAlert _ _ _ => true
  | .temperatureMaxAlert _ _ _ => true
  | _ => false

/-- A successful alert emission returns exactly the one event. -/
theorem mkAlert_ok {cs : IOLinkSensorInformation} {e : Event} {l : List Event}
    (h : mkAlert cs e = .ok l) : l = [e] := by
  unfold mkAlert at h
  cases h1 : requireStr cs.sensorname with
  | error e1 => rw [h1] at h; simp [bind, Except.bind] at h
  | ok s1 =>
    rw [h1] at h
    cases h2 : requireStr cs.sensorlocalname with
    | error e2 => rw [h2] at h; simp [bind, Except.bind] at h
    | ok s2 =>
      rw [h2] at h
      simp only [bind, Except.bind, pure, Except.pure, Except.ok.injEq] at h
      exact h.symm

/-- A conditional alert emission returns the one event or nothing. -/
theorem ite_mkAlert_ok {c : Prop} [Decidable c] {cs : IOLinkSensorInformation}
    {e : Event} {l : List Event}
    (h : (if c then mkAlert cs e else pure []) = .ok l) : l = [e] ∨ l = [] := by
  split at h
  · exact Or.inl (mkAlert_ok h)
  · refine Or.inr ?_
    simp only [pure, Except.pure, Except.ok.injEq] at h
    exact h.symm

/-- A successful bound computation factors into a successful first step
    and a successful continuation. -/
theorem bind_ok {α β : Type} {x : Except PyErr α} {f : α → Except PyErr β} {b : β}
    (h : (x >>= f) = .ok b) : ∃ a, x = .ok a ∧ f a = .ok b := by
  cases x with
  | error e => simp [bind, Except.bind] at h
  | ok a => exact ⟨a, rfl, by simpa [bind, Except.bind] using h⟩

/-- Every event the threshold evaluator emits is an alert event. -/
theorem checkThresholds_alerts (cs : IOLinkSensorInformation) (props : ThresholdProps)
    {evs : List Event} {brk : Bool}
    (h : checkThresholds cs props = .ok (evs, brk)) :
    ∀ e ∈ evs, isAlertEvent e = true := by
  unfold checkThresholds at h
  split at h
  · simp only [Except.ok.injEq, Prod.mk.injEq] at h
    rcases h with ⟨h1, _⟩
    subst h1
    intro e he
    cases he
  · obtain ⟨ser, hser, h⟩ := bind_ok h
    simp only [] at h
    split at h
    · split at h
      · -- vibration types
        split at h
        · -- missing acceleration threshold
          simp only [Except.ok.injEq, Prod.mk.injEq] at h
          rcases h with ⟨h1, _⟩; subst h1; intro e he; cases he
        · split at h
          · -- missing velocity threshold
            simp only [Except.ok.injEq, Prod.mk.injEq] at h
            rcases h with ⟨h1, _⟩; subst h1; intro e he; cases he
          · split at h
            · -- both metrics present
              obtain ⟨la, hA, h⟩ := bind_ok h
              obtain ⟨lv, hV, h⟩ := bind_ok h
              simp only [Except.ok.injEq, Prod.mk.injEq] at h
              rcases h with ⟨h1, _⟩
              subst h1
              intro e he
              rcases List.mem_append.mp he with hm | hm
              · rcases ite_mkAlert_ok hA with h' | h' <;> subst h' <;>
                  simp_all [isAlertEvent]
              · rcases ite_mkAlert_ok hV with h' | h' <;> subst h' <;>
                  simp_all [isAlertEvent]
            · -- a metric missing from the fields
              simp only [Except.ok.injEq, Prod.mk.injEq] at h
              rcases h with ⟨h1, _⟩; subst h1; intro e he; cases he
      · split at h
        · -- temperature type
          split at h
          · -- temperature field missing
            simp only [Except.ok.injEq, Prod.mk.injEq] at h
            rcases h with ⟨h1, _⟩; subst h1; intro e he; cases he
          · split at h
            · -- below minimum
              obtain ⟨lm, hM, h⟩ := bind_ok h
              simp only [Except.ok.injEq, Prod.mk.injEq] at h
              rcases h with ⟨h1, _⟩
              subst h1
              rw [mkAlert_ok hM]
              intro e he
              rcases List.mem_singleton.mp he with rfl
              rfl
            · split at h
              · -- above maximum
                obtain ⟨lm, hM, h⟩ := bind_ok h
                simp only [Except.ok.injEq, Prod.mk.injEq] at h
                rcases h with ⟨h1, _⟩
                subst h1
                rw [mkAlert_ok hM]
                intro e he
                rcases List.mem_singleton.mp he with rfl
                rfl
              · -- inside the bounds
                simp only [Except.ok.injEq, Prod.mk.injEq] at h
                rcases h with ⟨h1, _⟩; subst h1; intro e he; cases he
        · -- vendor 310, other type
          simp only [Except.ok.injEq, Prod.mk.injEq] at h
          rcases h with ⟨h1, _⟩; subst h1; intro e he; cases he
    · -- other vendor
      simp only [Except.ok.injEq, Prod.mk.injEq] at h
      rcases h with ⟨h1, _⟩; subst h1; intro e he; cases he

/-- A vibration sensor (vendor 310, type 417, serial S1) as the current
    record of a port that was empty in the previous cycle. -/
def vib417S1 : IOLinkSensorInformation :=
  { sensorport := 1, sensortype := .pint 417, sensorname := .pstr ("JN2202"),
    sensorserial := .pstr ("S1"), sensorvendorid := .pint 310, sensordata := -2,
    sensorlocalname := .pstr ("vib1"),
    sensorprocessdata := some (.pstr ("01F4012C1450")),
    json := some { measurement := "vibrationEvents"
                   fields := [("configuration", 5), ("diagnosis", 20),
                              ("velocity", 3), ("acceleration", 5)] } }

/-- The saved topology of a two-port master with both ports empty. -/
def prevAdded : List (Option IOLinkSensorInformation) :=
  [some (emptySensorInformation 1), some (emptySensorInformation 2)]

/-- The current topology after a sensor appeared on port 1. -/
def curAdded : List (Option IOLinkSensorInformation) :=
  [some vib417S1, some (emptySensorInformation 2)]

/-- C3 counterexample: for a port transitioning from empty to a sensor
    of type 417 with serial S1, the differ does not emit one
    SENSOR_ADDED (NEWSENSORFOUND) event.  The empty port is represented
    by an explicit record whose type is the empty string, not by None,
    so the comparison takes the type-changed branch and reports
    SENSORTYPECHANGED carrying the old (empty) type and old (empty)
    serial. -/
theorem added_sensor_not_reported_as_added :
    portLoop (some prevAdded) curAdded (fun _ => none) 2 =
      .ok [Event.sensortypechanged 1 (.pstr ("")) ("")]
    ∧ portLoop (some prevAdded) curAdded (fun _ => none) 2 ≠
      .ok [Event.newsensorfound 1 (.pint 417) ("S1")] := by decide

/-- C3 amended: on the entry records the builder actually produces
    (always present records, an empty port being the empty-string
    sentinel record), the comparison of a saved and a current entry
    emits SENSORTYPECHANGED(port, oldType, oldSerial) whenever the types
    differ (this includes empty-to-present and present-to-empty
    transitions), SENSORSERIALCHANGED(port, type, oldSerial) when the
    types agree and the serials differ, and nothing otherwise; the
    SENSORNOTFOUND and NEWSENSORFOUND branches require a None entry and
    are unreachable for such lists.  When no saved topology exists (the
    first cycle), the port loop emits no change events: every emitted
    event is an alert event. -/
theorem differ_on_explicit_records :
    (∀ (sv cs : IOLinkSensorInformation) (s : String), sv.sensorserial = .pstr s →
      diffPort (some sv) (some cs) = .ok (
        if sv.sensortype ≠ cs.sensortype then
          [Event.sensortypechanged sv.sensorport sv.sensortype s]
        else if sv.sensorserial ≠ cs.sensorserial then
          [Event.sensorserialchanged sv.sensorport sv.sensortype s]
        else []))
    ∧ (∀ (cur : List (Option IOLinkSensorInformation)) (props : ThresholdProps)
        (pc : Nat) (evs : List Event),
        portLoop none cur props pc = .ok evs →
        ∀ e ∈ evs, isAlertEvent e = true) := by
  constructor
  · intro sv cs s hs
    by_cases h1 : sv.sensortype = cs.sensortype
    · by_cases h2 : sv.sensorserial = cs.sensorserial
      · simp [diffPort, hs, h1, h2, bind, Except.bind, requireStr]
        split <;> rfl
      · simp [diffPort, hs, h1, h2, bind, Except.bind, requireStr]
        split <;> rfl
    · simp [diffPort, hs, h1, bind, Except.bind, requireStr]
  · intro cur props pc evs h
    have main : ∀ (ps : List Nat) (evs : List Event),
        runPorts none cur props ps = .ok evs → ∀ e ∈ evs, isAlertEvent e = true := by
      intro ps
      induction ps with
      | nil =>
        intro evs h e he
        simp only [runPorts, Except.ok.injEq] at h
        subst h
        cases he
      | cons p rest ih =>
        intro evs h e he
        unfold runPorts at h
        obtain ⟨⟨evs1, brk⟩, hb, h⟩ := bind_ok h
        have halert : ∀ e ∈ evs1, isAlertEvent e = true := by
          unfold portBody at hb
          obtain ⟨evs0, h0, hb⟩ := bind_ok hb
          have hz : evs0 = [] := by
            simpa [diffStep, pure, Except.pure] using h0.symm
          subst hz
          obtain ⟨cs?, hidx, hb⟩ := bind_ok hb
          cases cs? with
          | none => simp [thresholdStep] at hb
          | some cs =>
            simp only [thresholdStep] at hb
            obtain ⟨⟨evs2, brk2⟩, hct, hb⟩ := bind_ok hb
            simp only [List.nil_append, Except.ok.injEq, Prod.mk.injEq] at hb
            rcases hb with ⟨hb1, _⟩
            subst hb1
            exact checkThresholds_alerts cs props hct
        by_cases hbrk : brk = true
        · subst hbrk
          simp only [if_pos] at h
          simp only [Except.ok.injEq] at h
          subst h
          exact halert e he
        · have hbf : brk = false := by
            cases brk
            · rfl
            · exact absurd rfl hbrk
          subst hbf
          simp only [Bool.false_eq_true, if_neg] at h
          obtain ⟨evs', hrest, h⟩ := bind_ok h
          simp only [Except.ok.injEq] at h
          subst h
          rcases List.mem_append.mp he with hm | hm
          · exact halert e hm
          · exact ih evs' hrest e hm
    exact main (List.range (pc - 1)) evs h

/-- Decoded fields with an acceleration of 6 and a velocity of 1. -/
def acc6Json : SensorJson :=
  { measurement := "vibrationEvents"
    fields := [("acceleration", 6), ("velocity", 1)] }

/-- A first-cycle topology whose port 1 sensor has a decoded
    acceleration of 6 against a configured threshold of 5. -/
def curFirstCycle : List (Option IOLinkSensorInformation) :=
  [some { vib417S1 with json := some acc6Json },
   some (emptySensorInformation 2)]

/-- Thresholds for the serial S1 vibration sensor: acceleration 5,
    velocity 99. -/
def propsS1 : ThresholdProps := fun k =>
  if k = "310@S1@acceleration" then some 5
  else if k = "310@S1@velocity" then some 99
  else none

/-- Closed instance of the C3 amended theorem: comparing the empty
    sentinel record against the appeared type-417 sensor yields exactly
    the SENSORTYPECHANGED event, and the alert a first (saved-list-free)
    cycle emits is an alert event. -/
theorem differ_on_explicit_records_witness :
    diffPort (some (emptySensorInformation 1)) (some vib417S1) =
      .ok [Event.sensortypechanged 1 (.pstr ("")) ("")]
    ∧ isAlertEvent (Event.accelerationAlert 1 6 5) = true := by
  constructor
  · have h := differ_on_explicit_records.1 (emptySensorInformation 1) vib417S1 ("") rfl
    rw [if_pos (by decide :
      (emptySensorInformation 1).sensortype ≠ vib417S1.sensortype)] at h
    exact h
  · exact differ_on_explicit_records.2 curFirstCycle propsS1 2
      [Event.accelerationAlert 1 6 5] (by decide)
      (Event.accelerationAlert 1 6 5) (by decide)

/-- A present sensor record with the given port, type and serial, and
    no assigned json. -/
def plainSensor (p : Nat) (ty : Int) (ser : String) : IOLinkSensorInformation :=
  { sensorport := p, sensortype := .pint ty, sensorname := .pstr ("n"),
    sensorserial := .pstr (ser), sensorvendorid := .pint 310, sensordata := -2,
    sensorlocalname := .pstr ("l"), sensorprocessdata := none, json := none }

/-- The vibration sensor on port 1 of the ordering scenario, with
    decoded fields assigned. -/
def vibPort1 : IOLinkSensorInformation :=
  { sensorport := 1, sensortype := .pint 417, sensorname := .pstr ("n1"),
    sensorserial := .pstr ("S1"), sensorvendorid := .pint 310, sensordata := -2,
    sensorlocalname := .pstr ("l1"), sensorprocessdata := none,
    json := some acc6Json }

/-- Saved topology of a three-port master: vibration sensor on port 1,
    type 446 sensors on ports 2 and 3. -/
def prevOrd : List (Option IOLinkSensorInformation) :=
  [some vibPort1, some (plainSensor 2 446 ("S2")), some (plainSensor 3 446 ("S3"))]

/-- Current topology: the sensors on ports 2 and 3 changed their type
    to 416. -/
def curOrd : List (Option IOLinkSensorInformation) :=
  [some vibPort1, some (plainSensor 2 416 ("S2")), some (plainSensor 3 416 ("S3"))]

/-- C4 counterexample: processing is neither per-port independent nor
    covers every port 1..N.  With no threshold configured, the missing
    acceleration key of port 1 executes a break that abandons ports 2
    and 3, so the type change on port 2 is never reported.  With
    thresholds configured for every key, port 2 is reported but the
    identical type change on port 3 still is not: the loop range
    0..portcount-2 never visits the last port. -/
theorem port_processing_not_independent :
    portLoop (some prevOrd) curOrd (fun _ => none) 3 = .ok []
    ∧ portLoop (some prevOrd) curOrd (fun _ => some 99999) 3 =
        .ok [Event.sensortypechanged 2 (.pint 446) ("S2")] := by decide

/-- Indexing is unaffected by setting an entry at a different index. -/
theorem pyIdx_set_ne {α : Type} (l : List α) (i p : Nat) (x : α) (h : p ≠ i) :
    pyIdx (l.set i x) p = pyIdx l p := by
  unfold pyIdx
  rw [List.get?_eq_getElem?, List.get?_eq_getElem?, List.getElem?_set_ne (Ne.symm h)]

/-- The comparison block reads only the compared index of the current
    list. -/
theorem diffStep_set_cur (save? : Option (List (Option IOLinkSensorInformation)))
    (cur : List (Option IOLinkSensorInformation)) (i p : Nat)
    (x : Option IOLinkSensorInformation) (h : p ≠ i) :
    diffStep save? (cur.set i x) p = diffStep save? cur p := by
  cases save? with
  | none => rfl
  | some sl =>
    unfold diffStep
    rw [pyIdx_set_ne cur i p x h]

/-- The comparison block reads only the compared index of the saved
    list. -/
theorem diffStep_set_save (sl cur : List (Option IOLinkSensorInformation))
    (i p : Nat) (x : Option IOLinkSensorInformation) (h : p ≠ i) :
    diffStep (some (sl.set i x)) cur p = diffStep (some sl) cur p := by
  show (pyIdx cur p >>= fun cs => pyIdx (sl.set i x) p >>= fun sv => diffPort sv cs) =
    (pyIdx cur p >>= fun cs => pyIdx sl p >>= fun sv => diffPort sv cs)
  rw [pyIdx_set_ne sl i p x h]

/-- The port body reads only its own index of the current list. -/
theorem portBody_set_cur (save? : Option (List (Option IOLinkSensorInformation)))
    (cur : List (Option IOLinkSensorInformation)) (props : ThresholdProps)
    (i p : Nat) (x : Option IOLinkSensorInformation) (h : p ≠ i) :
    portBody save? (cur.set i x) props p = portBody save? cur props p := by
  unfold portBody
  rw [diffStep_set_cur save? cur i p x h, pyIdx_set_ne cur i p x h]

/-- The port body reads only its own index of the saved list. -/
theorem portBody_set_save (sl cur : List (Option IOLinkSensorInformation))
    (props : ThresholdProps) (i p : Nat) (x : Option IOLinkSensorInformation)
    (h : p ≠ i) :
    portBody (some (sl.set i x)) cur props p = portBody (some sl) cur props p := by
  unfold portBody
  rw [diffStep_set_save sl cur i p x h]

/-- The port loop driver reads only the listed indices of the current
    list. -/
theorem runPorts_set_cur (save? : Option (List (Option IOLinkSensorInformation)))
    (cur : List (Option IOLinkSensorInformation)) (props : ThresholdProps)
    (i : Nat) (x : Option IOLinkSensorInformation) (ps : List Nat)
    (h : ∀ p ∈ ps, p ≠ i) :
    runPorts save? (cur.set i x) props ps = runPorts save? cur props ps := by
  induction ps with
  | nil => rfl
  | cons p rest ih =>
    unfold runPorts
    rw [portBody_set_cur save? cur props i p x (h p (by simp)),
      ih (fun q hq => h q (by simp [hq]))]

/-- The port loop driver reads only the listed indices of the saved
    list. -/
theorem runPorts_set_save (sl cur : List (Option IOLinkSensorInformation))
    (props : ThresholdProps) (i : Nat) (x : Option IOLinkSensorInformation)
    (ps : List Nat) (h : ∀ p ∈ ps, p ≠ i) :
    runPorts (some (sl.set i x)) cur props ps = runPorts (some sl) cur props ps := by
  induction ps with
  | nil => rfl
  | cons p rest ih =>
    unfold runPorts
    rw [portBody_set_save sl cur props i p x (h p (by simp)),
      ih (fun q hq => h q (by simp [hq]))]

/-- C4 amended: the loop compares and threshold-checks only the ports
    at zero-based indices 0..portcount-2, so the last port never
    influences the loop (changing either list at index portcount-1
    changes nothing); when no port executes a break, the ports are
    processed independently in ascending order and the events are their
    concatenation; a port that executes a break (for instance through a
    missing vibration threshold) abandons all remaining ports. -/
theorem port_loop_range_and_independence :
    (∀ (save? : Option (List (Option IOLinkSensorInformation)))
      (cur : List (Option IOLinkSensorInformation)) (props : ThresholdProps)
      (pc : Nat) (x : Option IOLinkSensorInformation),
      portLoop save? (cur.set (pc - 1) x) props pc = portLoop save? cur props pc)
    ∧ (∀ (sl cur : List (Option IOLinkSensorInformation)) (props : ThresholdProps)
      (pc : Nat) (x : Option IOLinkSensorInformation),
      portLoop (some (sl.set (pc - 1) x)) cur props pc =
        portLoop (some sl) cur props pc)
    ∧ (∀ (save? : Option (List (Option IOLinkSensorInformation)))
      (cur : List (Option IOLinkSensorInformation)) (props : ThresholdProps)
      (ps : List Nat) (f : Nat → List Event),
      (∀ p ∈ ps, portBody save? cur props p = .ok (f p, false)) →
      runPorts save? cur props ps = .ok (ps.flatMap f))
    ∧ (∀ (save? : Option (List (Option IOLinkSensorInformation)))
      (cur : List (Option IOLinkSensorInformation)) (props : ThresholdProps)
      (p : Nat) (rest : List Nat) (evs : List Event),
      portBody save? cur props p = .ok (evs, true) →
      runPorts save? cur props (p :: rest) = .ok evs) := by
  refine ⟨?_, ?_, ?_, ?_⟩
  · intro save? cur props pc x
    unfold portLoop
    exact runPorts_set_cur save? cur props (pc - 1) x (List.range (pc - 1))
      (fun p hp => Nat.ne_of_lt (List.mem_range.mp hp))
  · intro sl cur props pc x
    unfold portLoop
    exact runPorts_set_save sl cur props (pc - 1) x (List.range (pc - 1))
      (fun p hp => Nat.ne_of_lt (List.mem_range.mp hp))
  · intro save? cur props ps f h
    induction ps with
    | nil => rfl
    | cons p rest ih =>
      unfold runPorts
      rw [h p (by simp), ih (fun q hq => h q (by simp [hq]))]
      simp [bind, Except.bind]
  · intro save? cur props p rest evs h
    unfold runPorts
    rw [h]
    simp [bind, Except.bind]

/-- Closed instance of the C4 amended theorem: the break of port index 0
    (missing vibration threshold) makes the driver return the empty
    event list without visiting index 1. -/
theorem port_loop_range_and_independence_witness :
    runPorts (some prevOrd) curOrd (fun _ => none) [0, 1] = .ok [] := by
  exact port_loop_range_and_independence.2.2.2 (some prevOrd) curOrd
    (fun _ => none) 0 [1] [] (by decide)

/-- A vibration sensor on port 1 whose decoded velocity is 6. -/
def vibVel6 : IOLinkSensorInformation :=
  { sensorport := 1, sensortype := .pint 416, sensorname := .pstr ("n1"),
    sensorserial := .pstr ("S1"), sensorvendorid := .pint 310, sensordata := -2,
    sensorlocalname := .pstr ("l1"), sensorprocessdata := none,
    json := some { measurement := "vibrationEvents"
                   fields := [("acceleration", 1), ("velocity", 6)] } }

/-- The two-port topology with the velocity-6 sensor on port 1. -/
def topoVel6 : List (Option IOLinkSensorInformation) :=
  [some vibVel6, some (emptySensorInformation 2)]

/-- A threshold table holding only the velocity limit 5 for the S1
    sensor; the acceleration entry is missing. -/
def velOnlyProps : ThresholdProps := fun k =>
  if k = "310@S1@velocity" then some 5 else none

/-- C5 counterexample: a missing threshold entry is not a silent
    per-metric skip without effect on other checks.  The S1 sensor has
    a configured velocity limit of 5 and a decoded velocity of 6, but
    because its acceleration entry is missing, the KeyError branch
    breaks out of the port loop and no velocity alert is raised. -/
theorem missing_threshold_not_silent :
    portLoop (some topoVel6) topoVel6 velOnlyProps 2 = .ok []
    ∧ velOnlyProps ("310@S1@velocity") = some 5 := by decide

/-- C5 amended: for temperature sensors, missing threshold entries fall
    back to the effectively unbounded defaults 99999.99 and -273.00 and
    absence of configuration alone never produces an alert; for
    vibration sensors, a missing acceleration entry does not silently
    skip that metric but breaks, abandoning the threshold evaluation of
    this and all later ports of the cycle. -/
theorem threshold_missing_entry_behaviour :
    (∀ (cs : IOLinkSensorInformation) (j : SensorJson) (s : String) (t : ℚ)
      (props : ThresholdProps),
      cs.sensorvendorid = .pint 310 → cs.sensortype = .pint 446 →
      cs.sensorserial = .pstr s → cs.json = some j →
      lookupField j.fields "temperature" = some t →
      props (pyStr cs.sensorvendorid ++ "@" ++ s ++ "@temperaturemax") = none →
      props (pyStr cs.sensorvendorid ++ "@" ++ s ++ "@temperaturemin") = none →
      (-273 : ℚ) ≤ t → t ≤ (99999.99 : ℚ) →
      checkThresholds cs props = .ok ([], false))
    ∧ (∀ (cs : IOLinkSensorInformation) (j : SensorJson) (s : String)
      (props : ThresholdProps),
      cs.sensorvendorid = .pint 310 →
      (cs.sensortype = .pint 416 ∨ cs.sensortype = .pint 417) →
      cs.sensorserial = .pstr s → cs.json = some j →
      props (pyStr cs.sensorvendorid ++ "@" ++ s ++ "@acceleration") = none →
      checkThresholds cs props = .ok ([], true)) := by
  constructor
  · intro cs j s t props hv ht hs hj hft hmax hmin h1 h2
    rw [hv] at hmax hmin
    simp [checkThresholds, hj, hs, hv, ht, requireStr, bind, Except.bind,
      hmax, hmin, hft, not_lt.mpr h1, not_lt.mpr h2]
  · intro cs j s props hv ht hs hj hacc
    rw [hv] at hacc
    simp [checkThresholds, hj, hs, hv, ht, requireStr, bind, Except.bind, hacc]

/-- A temperature sensor on port 2 with a decoded temperature of 30. -/
def temp446T1 : IOLinkSensorInformation :=
  { sensorport := 2, sensortype := .pint 446, sensorname := .pstr ("TA"),
    sensorserial := .pstr ("T1"), sensorvendorid := .pint 310, sensordata := -2,
    sensorlocalname := .pstr ("t1"), sensorprocessdata := none,
    json := some { measurement := "temperatureEvents"
                   fields := [("temperature", 30)] } }

/-- Closed instance of the C5 amended theorem: with no configuration at
    all, the temperature sensor alerts nothing and continues, while the
    vibration sensor breaks. -/
theorem threshold_missing_entry_behaviour_witness :
    checkThresholds temp446T1 (fun _ => none) = .ok ([], false)
    ∧ checkThresholds vibVel6 (fun _ => none) = .ok ([], true) := by
  constructor
  · exact threshold_missing_entry_behaviour.1 temp446T1 _ ("T1") 30 (fun _ => none)
      rfl rfl rfl rfl (by decide) rfl rfl (by norm_num) (by norm_num)
  · exact threshold_missing_entry_behaviour.2 vibVel6 _ ("S1") (fun _ => none)
      rfl (.inl rfl) rfl rfl rfl

/-- Value of one byte from its two hex digits, high nibble first. -/
def byteVal (hi lo : Nat) : Nat := 16 * hi + lo

/-- Big-endian 16-bit value of two bytes. -/
def be16 (b0 b1 : Nat) : Nat := 256 * b0 + b1

/-- C6: on a valid hex string of the expected width (at least the 11
    characters the slices read), the vibration codec returns
    acceleration = the big-endian 16-bit value of bytes 0-1 over 100,
    velocity = the big-endian 16-bit value of bytes 2-3 over 100,
    diagnosis = byte 4, and configuration = the high nibble of byte 5
    (the digit at character 10); the temperature codec returns the whole
    string parsed as one integer divided by 10, the division performed
    on the exact parsed integer. -/
theorem codec_decodes_fields :
    (∀ (info : IOLinkSensorInformation)
      (c0 c1 c2 c3 c4 c5 c6 c7 c8 c9 c10 : Char) (rest : List Char)
      (d0 d1 d2 d3 d4 d5 d6 d7 d8 d9 d10 : Nat),
      info.sensorvendorid = .pint 310 →
      (info.sensortype = .pint 416 ∨ info.sensortype = .pint 417) →
      info.sensorprocessdata =
        some (.pstr (String.mk ([c0, c1, c2, c3, c4, c5, c6, c7, c8, c9, c10] ++ rest))) →
      hexDigit? c0 = some d0 → hexDigit? c1 = some d1 → hexDigit? c2 = some d2 →
      hexDigit? c3 = some d3 → hexDigit? c4 = some d4 → hexDigit? c5 = some d5 →
      hexDigit? c6 = some d6 → hexDigit? c7 = some d7 → hexDigit? c8 = some d8 →
      hexDigit? c9 = some d9 → hexDigit? c10 = some d10 →
      datatojson info = .ok (some
        { measurement := "vibrationEvents"
          fields := [
            ("configuration", (d10 : ℚ)),
            ("diagnosis", ((byteVal d8 d9 : Nat) : ℚ)),
            ("velocity", ((be16 (byteVal d4 d5) (byteVal d6 d7) : Nat) : ℚ) / 100),
            ("acceleration", ((be16 (byteVal d0 d1) (byteVal d2 d3) : Nat) : ℚ) / 100)] }))
    ∧ (∀ (info : IOLinkSensorInformation) (pd : String) (n : Nat),
      info.sensorvendorid = .pint 310 → info.sensortype = .pint 446 →
      info.sensorprocessdata = some (.pstr pd) →
      hexToNat? pd = some n →
      datatojson info = .ok (some
        { measurement := "temperatureEvents"
          fields := [("temperature", (n : ℚ) / 10)] })) := by
  constructor
  · intro info c0 c1 c2 c3 c4 c5 c6 c7 c8 c9 c10 rest
      d0 d1 d2 d3 d4 d5 d6 d7 d8 d9 d10 hv ht hp
      h0 h1 h2 h3 h4 h5 h6 h7 h8 h9 h10
    have s10 : hexToNat?
        (pySlice (String.mk ([c0, c1, c2, c3, c4, c5, c6, c7, c8, c9, c10] ++ rest)) 10 11) =
        some d10 := by
      show hexVal? [c10] = some d10
      simp [hexVal?, hexGo, h10]
    have s8 : hexToNat?
        (pySlice (String.mk ([c0, c1, c2, c3, c4, c5, c6, c7, c8, c9, c10] ++ rest)) 8 10) =
        some (byteVal d8 d9) := by
      show hexVal? [c8, c9] = some (byteVal d8 d9)
      simp [hexVal?, hexGo, h8, h9, byteVal]
      ring
    have s4 : hexToNat?
        (pySlice (String.mk ([c0, c1, c2, c3, c4, c5, c6, c7, c8, c9, c10] ++ rest)) 4 8) =
        some (be16 (byteVal d4 d5) (byteVal d6 d7)) := by
      show hexVal? [c4, c5, c6, c7] = some (be16 (byteVal d4 d5) (byteVal d6 d7))
      simp [hexVal?, hexGo, h4, h5, h6, h7, byteVal, be16]
      ring
    have s0 : hexToNat?
        (pySlice (String.mk ([c0, c1, c2, c3, c4, c5, c6, c7, c8, c9, c10] ++ rest)) 0 4) =
        some (be16 (byteVal d0 d1) (byteVal d2 d3)) := by
      show hexVal? [c0, c1, c2, c3] = some (be16 (byteVal d0 d1) (byteVal d2 d3))
      simp [hexVal?, hexGo, h0, h1, h2, h3, byteVal, be16]
      ring
    simp only [List.cons_append, List.nil_append] at s10 s8 s4 s0
    simp [datatojson, hv, ht, hp, s10, s8, s4, s0]
  · intro info pd n hv ht hp hx
    have hns : info.sensortype = .pint 416 ∨ info.sensortype = .pint 417 → False := by
      rw [ht]; rintro (h | h) <;> cases h
    simp [datatojson, hv, ht, hp, hx, hns]

/-- Closed instance of the C6 theorem: raw 01F4012C1450 decodes to
    acceleration 500/100, velocity 300/100, diagnosis 20 and
    configuration 5; raw 012C decodes to temperature 300/10. -/
theorem codec_decodes_fields_witness :
    datatojson { emptySensorInformation 4 with
      sensorvendorid := .pint 310, sensortype := .pint 416,
      sensorprocessdata := some (.pstr ("01F4012C1450")) } =
      .ok (some
        { measurement := "vibrationEvents"
          fields := [
            ("configuration", ((5 : Nat) : ℚ)),
            ("diagnosis", ((byteVal 1 4 : Nat) : ℚ)),
            ("velocity", ((be16 (byteVal 0 1) (byteVal 2 12) : Nat) : ℚ) / 100),
            ("acceleration", ((be16 (byteVal 0 1) (byteVal 15 4) : Nat) : ℚ) / 100)] })
    ∧ datatojson { emptySensorInformation 4 with
      sensorvendorid := .pint 310, sensortype := .pint 446,
      sensorprocessdata := some (.pstr ("012C")) } =
      .ok (some
        { measurement := "temperatureEvents"
          fields := [("temperature", ((300 : Nat) : ℚ) / 10)] }) := by
  constructor
  · exact codec_decodes_fields.1 _ '0' '1' 'F' '4' '0' '1' '2' 'C' '1' '4' '5' ['0']
      0 1 15 4 0 1 2 12 1 4 5 rfl (.inl rfl) (by decide) (by decide) (by decide)
      (by decide) (by decide) (by decide) (by decide) (by decide) (by decide)
      (by decide) (by decide) (by decide)
  · exact codec_decodes_fields.2 _ ("012C") 300 rfl rfl rfl (by decide)

/-- Adding a multiple of the modulus does not change the remainder. -/
theorem add_mod_of_mod_eq_zero (m k j : Nat) (hk : k % m = 0) :
    (k + j) % m = j % m := by
  obtain ⟨q, rfl⟩ := Nat.dvd_of_mod_eq_zero hk
  rw [Nat.mul_add_mod]

/-- The scheduling state before iteration k is determined by k modulo
    iterations + 1: the zero residue is the reset state (0, True) and a
    residue r is (r, False). -/
theorem schedState_mod (n : Nat) (hn : 1 ≤ n) : ∀ k,
    schedState n k = if k % (n + 1) = 0 then (0, true) else (k % (n + 1), false) := by
  intro k
  induction k with
  | zero => simp [schedState]
  | succ k ih =>
    have hm2 : 1 % (n + 1) = 1 := Nat.mod_eq_of_lt (by omega)
    rw [schedState, ih]
    rcases Nat.eq_zero_or_pos (k % (n + 1)) with hr | hr
    · have hm : (k + 1) % (n + 1) = 1 := by
        rw [Nat.add_mod, hr, hm2]
        exact Nat.mod_eq_of_lt (by omega)
      simp [hr, schedStep, hm]
    · have hrne : k % (n + 1) ≠ 0 := Nat.pos_iff_ne_zero.mp hr
      have hrlt : k % (n + 1) < n + 1 := Nat.mod_lt _ (by omega)
      rw [if_neg hrne]
      by_cases hco : k % (n + 1) = n
      · have hm : (k + 1) % (n + 1) = 0 := by
          rw [Nat.add_mod, hco, hm2, Nat.mod_self]
        simp [schedStep, hco, hm]
      · have hle : k % (n + 1) + 1 ≤ n := by omega
        have hm : (k + 1) % (n + 1) = k % (n + 1) + 1 := by
          rw [Nat.add_mod, hm2]
          exact Nat.mod_eq_of_lt (by omega)
        have hne : k % (n + 1) + 1 ≠ 0 := by omega
        simp [schedStep, hm, Nat.not_lt.mpr hle, hne]

/-- The kind of iteration k is full exactly on the zero residues of
    k modulo iterations + 1. -/
theorem kindAt_eq (n : Nat) (hn : 1 ≤ n) (k : Nat) :
    kindAt n k = if k % (n + 1) = 0 then PollKind.fullPoll else PollKind.dataPoll := by
  unfold kindAt
  rw [schedState_mod n hn k]
  by_cases h : k % (n + 1) = 0
  · simp [h, schedStep]
  · by_cases h2 : k % (n + 1) + 1 > n <;> simp [h, h2, schedStep]

/-- C7: the poll loop is the two-state machine of the specification:
    the first iteration is a full poll; the iteration after a full poll
    is a data (partial) poll; after a full poll come exactly
    iterations-many consecutive data polls and then a full poll again;
    and every iteration is one of the two kinds, with no terminal state
    (the step function is total, so the trace is defined at every
    iteration index). -/
theorem poll_state_machine (n : Nat) (hn : 1 ≤ n) :
    kindAt n 0 = .fullPoll
    ∧ (∀ k, kindAt n k = .fullPoll → kindAt n (k + 1) = .dataPoll)
    ∧ (∀ k, kindAt n k = .fullPoll →
        (∀ j, 1 ≤ j → j ≤ n → kindAt n (k + j) = .dataPoll)
        ∧ kindAt n (k + (n + 1)) = .fullPoll)
    ∧ (∀ k, kindAt n k = .fullPoll ∨ kindAt n k = .dataPoll) := by
  have hfull : ∀ k, kindAt n k = .fullPoll → k % (n + 1) = 0 := by
    intro k h
    rw [kindAt_eq n hn k] at h
    by_cases hk : k % (n + 1) = 0
    · exact hk
    · rw [if_neg hk] at h
      cases h
  refine ⟨?_, ?_, ?_, ?_⟩
  · rw [kindAt_eq n hn 0]
    simp
  · intro k h
    have hk := hfull k h
    rw [kindAt_eq n hn (k + 1), add_mod_of_mod_eq_zero _ _ _ hk,
      Nat.mod_eq_of_lt (by omega : 1 < n + 1)]
    simp
  · intro k h
    have hk := hfull k h
    constructor
    · intro j hj1 hjn
      rw [kindAt_eq n hn (k + j), add_mod_of_mod_eq_zero _ _ _ hk,
        Nat.mod_eq_of_lt (by omega : j < n + 1)]
      have : j ≠ 0 := by omega
      simp [this]
    · rw [kindAt_eq n hn (k + (n + 1)), add_mod_of_mod_eq_zero _ _ _ hk,
        Nat.mod_self]
      simp
  · intro k
    rw [kindAt_eq n hn k]
    by_cases hk : k % (n + 1) = 0
    · exact Or.inl (by simp [hk])
    · exact Or.inr (by simp [hk])

/-- Closed instance of the C7 theorem at the default configuration of
    six data polls per full poll. -/
theorem poll_state_machine_witness :
    kindAt 6 0 = PollKind.fullPoll ∧ kindAt 6 7 = PollKind.fullPoll := by
  constructor
  · exact (poll_state_machine 6 (by norm_num)).1
  · exact (((poll_state_machine 6 (by norm_num)).2.2.1 0
      ((poll_state_machine 6 (by norm_num)).1)).2)

/-- Python list.insert appends when the index is at or past the end. -/
theorem pyInsert_append {α : Type} (a : α) : ∀ (l : List α) (i : Nat),
    l.length ≤ i → pyInsert a i l = l ++ [a] := by
  intro l
  induction l with
  | nil => intro i h; cases i <;> rfl
  | cons b t ih =>
    intro i h
    simp only [List.length_cons] at h
    cases i with
    | zero => omega
    | succ j =>
      show b :: pyInsert a j t = b :: (t ++ [a])
      rw [ih j (by omega)]

/-- A successfully fetched port record carries its port number, and a
    port whose status is not 2 is the explicit empty record. -/
theorem fetchPortSensor_spec (d : Device) (p : Nat) (s : IOLinkSensorInformation)
    (h : fetchPortSensor d p = .ok s) :
    s.sensorport = p ∧
    (getportdevicestatus d p ≠ .ok (.pint 2) → s = emptySensorInformation p) := by
  unfold fetchPortSensor at h
  obtain ⟨st, hst, h⟩ := bind_ok h
  by_cases h2 : st = .pint 2
  · rw [if_pos h2] at h
    obtain ⟨typ, _, h⟩ := bind_ok h
    obtain ⟨lnm, _, h⟩ := bind_ok h
    obtain ⟨ser, _, h⟩ := bind_ok h
    obtain ⟨vid, _, h⟩ := bind_ok h
    obtain ⟨nm, _, h⟩ := bind_ok h
    obtain ⟨pd, _, h⟩ := bind_ok h
    obtain rfl := Except.ok.inj h
    refine ⟨rfl, fun hne => absurd ?_ hne⟩
    rw [hst, h2]
  · rw [if_neg h2] at h
    obtain rfl := Except.ok.inj h
    exact ⟨rfl, fun _ => rfl⟩

/-- The invariant of the getsensorsondevices accumulation loop: running
    over ports p .. p+k-1 with an accumulator of length p-1 appends one
    successfully fetched record per port, in port order. -/
theorem sensorsLoop_spec (d : Device) : ∀ (k p : Nat)
    (acc l : List (Option IOLinkSensorInformation)),
    acc.length + 1 = p →
    sensorsLoop d (List.range' p k) acc = .ok l →
    l.length = acc.length + k
    ∧ (∀ i, i < acc.length → l.get? i = acc.get? i)
    ∧ (∀ j, j < k → ∃ s, fetchPortSensor d (p + j) = .ok s ∧
        l.get? (acc.length + j) = some (some s)) := by
  intro k
  induction k with
  | zero =>
    intro p acc l hp h
    have h0 : List.range' p 0 = [] := rfl
    rw [h0] at h
    unfold sensorsLoop at h
    obtain rfl := Except.ok.inj h
    refine ⟨by simp, fun i _ => rfl, fun j hj => absurd hj (by omega)⟩
  | succ k ih =>
    intro p acc l hp h
    rw [List.range'_succ] at h
    unfold sensorsLoop at h
    obtain ⟨s, hs, h⟩ := bind_ok h
    have hins : pyInsert (some s) p acc = acc ++ [some s] :=
      pyInsert_append _ acc p (by omega)
    rw [hins] at h
    obtain ⟨hl1, hl2, hl3⟩ := ih (p + 1) (acc ++ [some s]) l (by simp; omega) h
    simp only [List.length_append, List.length_singleton] at hl1
    refine ⟨by omega, ?_, ?_⟩
    · intro i hi
      rw [hl2 i (by simp; omega)]
      simp only [List.get?_eq_getElem?]
      exact List.getElem?_append_left hi
    · intro j hj
      cases j with
      | zero =>
        refine ⟨s, by simpa using hs, ?_⟩
        simp only [Nat.add_zero]
        rw [hl2 acc.length (by simp)]
        simp [List.get?_eq_getElem?, List.getElem?_concat_length]
      | succ j' =>
        obtain ⟨s', hs', hg⟩ := hl3 j' (by omega)
        refine ⟨s', ?_, ?_⟩
        · rw [show p + (j' + 1) = (p + 1) + j' from by omega]
          exact hs'
        · rw [show acc.length + (j' + 1) = (acc ++ [some s]).length + j' from by
            simp; omega]
          exact hg

/-- C8: every topology a full poll builds has exactly one entry per
    port: its length is the port count, the entry at index i is a
    present record describing port i+1, and a port whose status is not
    2 (no operating sensor) is represented by the explicit empty
    record, never omitted. -/
theorem full_poll_topology_shape (d : Device) (n : Nat)
    (l : List (Option IOLinkSensorInformation))
    (hn : getportcount d = .ok n) (hl : getsensorsondevices d = .ok l) :
    l.length = n
    ∧ ∀ i, i < n → ∃ s, l.get? i = some (some s) ∧ s.sensorport = i + 1
        ∧ (getportdevicestatus d (i + 1) ≠ .ok (.pint 2) →
            s = emptySensorInformation (i + 1)) := by
  unfold getsensorsondevices at hl
  obtain ⟨n', hn', hl⟩ := bind_ok hl
  rw [hn] at hn'
  obtain rfl := Except.ok.inj hn'
  obtain ⟨h1, _, h3⟩ := sensorsLoop_spec d n 1 [] l (by simp) hl
  simp only [List.length_nil, Nat.zero_add] at h1 h3
  refine ⟨h1, ?_⟩
  intro i hi
  obtain ⟨s, hs, hg⟩ := h3 i hi
  have hc : 1 + i = i + 1 := Nat.add_comm 1 i
  rw [hc] at hs
  obtain ⟨hsp, hemp⟩ := fetchPortSensor_spec d (i + 1) s hs
  exact ⟨s, hg, hsp, hemp⟩

/-- A two-port master with an operating sensor on port 1 and nothing on
    port 2; each identity endpoint answers the string v. -/
def sensorsDemoDevice : Device :=
  { respond := fun q =>
      if q = portpath 1 ("status") then .response true (.pint 2)
      else if q = portpath 2 ("status") then .response true (.pint 0)
      else .response true (.pstr ("v"))
    treeSubs := [{ identifier := "iolinkmaster", nsubs := 2 }] }

/-- The record the demonstration master yields for its port 1. -/
def demoSensor1 : IOLinkSensorInformation :=
  { sensorport := 1, sensortype := .pstr ("v"), sensorname := .pstr ("v"),
    sensorserial := .pstr ("v"), sensorvendorid := .pstr ("v"), sensordata := -2,
    sensorlocalname := .pstr ("v"), sensorprocessdata := some (.pstr ("v")),
    json := none }

/-- The topology the demonstration master yields. -/
def demoTopology : List (Option IOLinkSensorInformation) :=
  [some demoSensor1, some (emptySensorInformation 2)]

/-- Closed instance of the C8 theorem at the demonstration master. -/
theorem full_poll_topology_shape_witness : demoTopology.length = 2 := by
  exact (full_poll_topology_shape sensorsDemoDevice 2 demoTopology
    (by decide) (by decide)).1
